import Mathlib

/-!
Shallow embedding of `examples/named_entity_recognition/ner_wikigold_transformer.ipynb`
(the single source file of the repository) and proofs about it.

The notebook is sequential glue code: a configuration cell, a chain of calls into
external libraries (`wikigold.load_dataset`, `TokenClassifier`, `fit`, `predict`,
`get_true_test_labels`, `get_predicted_token_labels`, `classification_report`),
and a final metric-extraction cell that parses the report string and records three
metrics with `sb.glue`.

Modelling conventions:
* Python floats that the notebook only assigns and passes through are modelled as
  rationals (`ℚ`) with their decimal values; no float arithmetic occurs in the
  notebook's own code.
* The external library calls are abstract: an `ExtLib` record of `Except`-valued
  functions over abstract data types.  The notebook run function `runNotebook`
  threads their results exactly as the cells do and records a trace of the calls
  it makes, with the arguments the notebook passes.
* Python `float(s)` string conversion is abstracted as a partial parse function
  `pf : String → Option ℚ` (success/failure is all the notebook's control flow
  depends on); list indexing errors and failed conversions become `PyError`.
* The execution environment visible to the configuration cell (`torch.cuda.is_available()`
  and the two fresh `TemporaryDirectory().name` values) is an `Env` record.
-/

set_option autoImplicit false

namespace NerWikigold

/-- The part of the execution environment the configuration cell reads:
`torch.cuda.is_available()` and the names of the two fresh temporary
directories created by `TemporaryDirectory()`. -/
structure Env where
  cuda_is_available : Bool
  tmpDataName : String
  tmpCacheName : String
  deriving DecidableEq, Repr

/-- The configuration constants bound by the configuration cell (cell 8 of the
notebook).  Source names are kept, except that the two sampling ratios are in
camel case. -/
structure Config where
  TEST_DATA_FRACTION : ℚ
  trainSampleRatio : ℚ
  testSampleRatio : ℚ
  NUM_TRAIN_EPOCHS : Nat
  DATA_PATH : String
  CACHE_DIR : String
  RANDOM_SEED : Nat
  MODEL_NAME : String
  DO_LOWER_CASE : Bool
  MAX_SEQ_LENGTH : Nat
  TRAILING_PIECE_TAG : String
  DEVICE : String
  BATCH_SIZE : Nat
  deriving DecidableEq, Repr

/-- The configuration cell: initial assignments, the `if QUICK_RUN:` override of
the two sampling ratios and the epoch count, the temporary-directory paths, the
fixed model constants, and the cuda-dependent `BATCH_SIZE`. -/
def mkConfig (QUICK_RUN : Bool) (env : Env) : Config :=
  let trainRatio0 : ℚ := 1
  let testRatio0 : ℚ := 1
  let numEpochs0 : Nat := 5
  let trainRatio := if QUICK_RUN then (0.1 : ℚ) else trainRatio0
  let testRatio := if QUICK_RUN then (0.1 : ℚ) else testRatio0
  let numEpochs := if QUICK_RUN then 1 else numEpochs0
  { TEST_DATA_FRACTION := (0.3 : ℚ)
    trainSampleRatio := trainRatio
    testSampleRatio := testRatio
    NUM_TRAIN_EPOCHS := numEpochs
    DATA_PATH := env.tmpDataName
    CACHE_DIR := env.tmpCacheName
    RANDOM_SEED := 100
    MODEL_NAME := "bert-base-cased"
    DO_LOWER_CASE := false
    MAX_SEQ_LENGTH := 200
    TRAILING_PIECE_TAG := "X"
    DEVICE := "cuda"
    BATCH_SIZE := if env.cuda_is_available then 16 else 8 }

/-- The Python exceptions the metric-extraction cell can raise: list indexing
out of range, and `float()` on a non-numeric string. -/
inductive PyError where
  | indexError
  | valueError
  deriving DecidableEq, Repr

/-- The whitespace class of Python `str.split()` with no argument (ASCII part). -/
def isPySpace (c : Char) : Bool :=
  c == ' ' || c == '\t' || c == '\n' || c == '\r' || c == '\x0b' || c == '\x0c'

/-- Split a character list at every character satisfying `p`; the separators are
dropped and the (possibly empty) pieces between them are kept, so the result
always has one more piece than there are separators. -/
def splitIf (p : Char → Bool) : List Char → List (List Char)
  | [] => [[]]
  | c :: rest =>
    match splitIf p rest with
    | [] => [[]]
    | grp :: rs => if p c then [] :: grp :: rs else (c :: grp) :: rs

/-- Python `s.split('\n')`: split at every newline, keeping empty pieces. -/
def pySplitOnNl (s : String) : List String :=
  (splitIf (fun c => c == '\n') s.data).map String.mk

/-- Python `s.split()`: split on runs of whitespace, discarding empty pieces. -/
def pySplit (s : String) : List String :=
  ((splitIf isPySpace s.data).filter (fun g => !g.isEmpty)).map String.mk

/-- Python `xs[i]` for `i ≥ 0`: `IndexError` when out of range. -/
def pyIndex (xs : List String) (i : Nat) : Except PyError String :=
  match xs[i]? with
  | some x => .ok x
  | none => .error .indexError

/-- Python `xs[-2]`: the second-to-last element, `IndexError` when the list has
fewer than two elements. -/
def pyIndexNeg2 (xs : List String) : Except PyError String :=
  if 2 ≤ xs.length then pyIndex xs (xs.length - 2) else .error .indexError

/-- Python `float(s)`.  The numeric string grammar is abstracted as a partial
parse function `pf`; `ValueError` when the string does not parse. -/
def pyFloat (pf : String → Option ℚ) (s : String) : Except PyError ℚ :=
  match pf s with
  | some q => .ok q
  | none => .error .valueError

/-- The metric-extraction cell (cell 20 of the notebook):
`report_splits = report.split('\n')[-2].split()` followed by the three
`sb.glue` calls on `float(report_splits[2])`, `float(report_splits[3])`,
`float(report_splits[4])`.  Returns the `(name, value)` pairs glued before any
exception, together with the exception if one is raised. -/
def metricsCell (pf : String → Option ℚ) (report : String) :
    List (String × ℚ) × Option PyError :=
  match pyIndexNeg2 (pySplitOnNl report) with
  | .error e => ([], some e)
  | .ok line =>
    let report_splits := pySplit line
    match pyIndex report_splits 2 with
    | .error e => ([], some e)
    | .ok s2 =>
      match pyFloat pf s2 with
      | .error e => ([], some e)
      | .ok p =>
        match pyIndex report_splits 3 with
        | .error e => ([("precision", p)], some e)
        | .ok s3 =>
          match pyFloat pf s3 with
          | .error e => ([("precision", p)], some e)
          | .ok r =>
            match pyIndex report_splits 4 with
            | .error e => ([("precision", p), ("recall", r)], some e)
            | .ok s4 =>
              match pyFloat pf s4 with
              | .error e => ([("precision", p), ("recall", r)], some e)
              | .ok f => ([("precision", p), ("recall", r), ("f1", f)], none)

/-- The second-to-last element of a list, when the list has at least two
elements. -/
def secondToLast? (xs : List String) : Option String :=
  if 2 ≤ xs.length then xs[xs.length - 2]? else none

/-- The metric extraction as the specification describes it (spec-side
definition for the refinement claim): split the report on newlines, take the
second-to-last line, split that line on whitespace, and record exactly three
metrics: the field at index 2 as precision, the field at index 3 as recall and
the field at index 4 as f1, each converted to float, in that order; `none` when
this is impossible. -/
def metricsDescribed (pf : String → Option ℚ) (report : String) :
    Option (List (String × ℚ)) :=
  match secondToLast? (pySplitOnNl report) with
  | none => none
  | some line =>
    let fields := pySplit line
    match (fields[2]?).bind pf, (fields[3]?).bind pf, (fields[4]?).bind pf with
    | some p, some r, some f => some [("precision", p), ("recall", r), ("f1", f)]
    | _, _, _ => none

/-- The lines of the report string, as `report.split('\n')` produces them. -/
def reportLines (report : String) : List String := pySplitOnNl report

/-- The whitespace-separated fields of the second-to-last line of the report
(defaulting to the empty string when that line does not exist). -/
def reportFields (report : String) : List String :=
  pySplit ((reportLines report).getD ((reportLines report).length - 2) "")

/-- The keyword arguments the notebook passes to `wikigold.load_dataset`
(cell 10). -/
structure LoadDatasetArgs where
  local_path : String
  test_fraction : ℚ
  random_seed : Nat
  train_sample_ratio : ℚ
  test_sample_ratio : ℚ
  model_name : String
  to_lower : Bool
  cache_dir : String
  max_len : Nat
  trailing_piece_tag : String
  batch_size : Nat
  num_gpus : Option Nat
  deriving DecidableEq, Repr

/-- The keyword arguments the notebook passes to the `TokenClassifier`
constructor (cell 12). -/
structure TokenClassifierArgs where
  model_name : String
  num_labels : Nat
  cache_dir : String
  deriving DecidableEq, Repr

/-- The keyword arguments the notebook passes to `model.fit` (cell 12).
`DL` is the abstract type of dataloaders. -/
structure FitArgs (DL : Type) where
  train_dataloader : DL
  num_epochs : Nat
  num_gpus : Option Nat
  local_rank : Int
  weight_decay : ℚ
  learning_rate : ℚ
  adam_epsilon : ℚ
  warmup_steps : Nat
  verbose : Bool
  seed : Nat
  deriving DecidableEq, Repr

/-- The keyword arguments the notebook passes to `model.predict` (cell 14). -/
structure PredictArgs (DL : Type) where
  test_dataloader : DL
  num_gpus : Option Nat
  verbose : Bool
  deriving DecidableEq, Repr

/-- The keyword arguments the notebook passes to `model.get_true_test_labels`
(cell 16).  `LM` and `DS` are the abstract label-map and dataset types. -/
structure TrueLabelsArgs (LM DS : Type) where
  label_map : LM
  dataset : DS
  deriving DecidableEq, Repr

/-- The keyword arguments the notebook passes to
`model.get_predicted_token_labels` (cell 18).  `Preds` is the abstract type of
raw predictions. -/
structure PredLabelsArgs (Preds LM DS : Type) where
  predictions : Preds
  label_map : LM
  dataset : DS
  deriving DecidableEq, Repr

/-- The external surface the notebook calls into, with abstract data types and
`Except`-valued calls: `wikigold.load_dataset`, Python `len` on the label map,
the `TokenClassifier` constructor and its methods, and
`seqeval.metrics.classification_report` (labels, predictions, digits). -/
structure ExtLib (ε DL DS LM Model Preds Labels : Type) where
  load_dataset : LoadDatasetArgs → Except ε (DL × DL × LM × DS)
  label_map_len : LM → Nat
  tokenClassifier : TokenClassifierArgs → Except ε Model
  fit : Model → FitArgs DL → Except ε Unit
  predict : Model → PredictArgs DL → Except ε Preds
  get_true_test_labels : Model → TrueLabelsArgs LM DS → Except ε Labels
  get_predicted_token_labels : Model → PredLabelsArgs Preds LM DS → Except ε Labels
  classification_report : Labels → Labels → Nat → Except ε String

/-- One observable step of the notebook: an external call with the arguments
the notebook passed, or one `sb.glue` metric recording. -/
inductive Event (DL DS LM Model Preds Labels : Type) where
  | load_dataset (args : LoadDatasetArgs)
  | tokenClassifier (args : TokenClassifierArgs)
  | fit (args : FitArgs DL)
  | predict (args : PredictArgs DL)
  | get_true_test_labels (args : TrueLabelsArgs LM DS)
  | get_predicted_token_labels (args : PredLabelsArgs Preds LM DS)
  | classification_report (trueLabels predLabels : Labels) (digits : Nat)
  | glue (name : String) (value : ℚ)
  deriving DecidableEq, Repr

/-- An error during a notebook run: an exception of the external library,
propagated as is, or a Python exception of the metric-extraction cell. -/
inductive RunError (ε : Type) where
  | ext (e : ε)
  | py (e : PyError)
  deriving DecidableEq, Repr

/-- The arguments of the `wikigold.load_dataset` call, built from the
configuration constants exactly as cell 10 writes them (`num_gpus=None`). -/
def loadArgsOf (cfg : Config) : LoadDatasetArgs :=
  { local_path := cfg.DATA_PATH
    test_fraction := cfg.TEST_DATA_FRACTION
    random_seed := cfg.RANDOM_SEED
    train_sample_ratio := cfg.trainSampleRatio
    test_sample_ratio := cfg.testSampleRatio
    model_name := cfg.MODEL_NAME
    to_lower := cfg.DO_LOWER_CASE
    cache_dir := cfg.CACHE_DIR
    max_len := cfg.MAX_SEQ_LENGTH
    trailing_piece_tag := cfg.TRAILING_PIECE_TAG
    batch_size := cfg.BATCH_SIZE
    num_gpus := none }

/-- The arguments of the `TokenClassifier` constructor call, as cell 12 writes
them: `num_labels=len(label_map)`. -/
def tcArgsOf (cfg : Config) (numLabels : Nat) : TokenClassifierArgs :=
  { model_name := cfg.MODEL_NAME
    num_labels := numLabels
    cache_dir := cfg.CACHE_DIR }

/-- The arguments of the `model.fit` call, as cell 12 writes them
(`num_gpus=None`, `local_rank=-1`, `weight_decay=0.0`, `learning_rate=5e-5`,
`adam_epsilon=1e-8`, `warmup_steps=0`, `verbose=True`, `seed=RANDOM_SEED`). -/
def fitArgsOf {DL : Type} (cfg : Config) (dl : DL) : FitArgs DL :=
  { train_dataloader := dl
    num_epochs := cfg.NUM_TRAIN_EPOCHS
    num_gpus := none
    local_rank := -1
    weight_decay := 0
    learning_rate := (5e-5 : ℚ)
    adam_epsilon := (1e-8 : ℚ)
    warmup_steps := 0
    verbose := true
    seed := cfg.RANDOM_SEED }

/-- The arguments of the `model.predict` call, as cell 14 writes them
(`num_gpus=None`, `verbose=True`). -/
def predictArgsOf {DL : Type} (dl : DL) : PredictArgs DL :=
  { test_dataloader := dl
    num_gpus := none
    verbose := true }

/-- The notebook's orchestration, cells 8 to 20 in program order: build the
configuration, call `wikigold.load_dataset`, construct the `TokenClassifier`,
`fit`, `predict`, recover true and predicted token labels, format the
classification report, and run the metric-extraction cell.  Returns the trace
of observable steps together with the outcome; any error of an external call
stops the run there and is returned unmodified. -/
def runNotebook {ε DL DS LM Model Preds Labels : Type}
    (QUICK_RUN : Bool) (env : Env)
    (lib : ExtLib ε DL DS LM Model Preds Labels)
    (pf : String → Option ℚ) :
    List (Event DL DS LM Model Preds Labels) × Except (RunError ε) Unit :=
  let cfg := mkConfig QUICK_RUN env
  let la := loadArgsOf cfg
  match lib.load_dataset la with
  | .error e => ([.load_dataset la], .error (.ext e))
  | .ok (train_dataloader, test_dataloader, label_map, test_dataset) =>
    let tca := tcArgsOf cfg (lib.label_map_len label_map)
    match lib.tokenClassifier tca with
    | .error e => ([.load_dataset la, .tokenClassifier tca], .error (.ext e))
    | .ok model =>
      let fa := fitArgsOf cfg train_dataloader
      match lib.fit model fa with
      | .error e =>
        ([.load_dataset la, .tokenClassifier tca, .fit fa], .error (.ext e))
      | .ok _ =>
        let pa := predictArgsOf test_dataloader
        match lib.predict model pa with
        | .error e =>
          ([.load_dataset la, .tokenClassifier tca, .fit fa, .predict pa],
            .error (.ext e))
        | .ok preds =>
          let ta : TrueLabelsArgs LM DS :=
            { label_map := label_map, dataset := test_dataset }
          match lib.get_true_test_labels model ta with
          | .error e =>
            ([.load_dataset la, .tokenClassifier tca, .fit fa, .predict pa,
              .get_true_test_labels ta], .error (.ext e))
          | .ok true_labels =>
            let pla : PredLabelsArgs Preds LM DS :=
              { predictions := preds, label_map := label_map,
                dataset := test_dataset }
            match lib.get_predicted_token_labels model pla with
            | .error e =>
              ([.load_dataset la, .tokenClassifier tca, .fit fa, .predict pa,
                .get_true_test_labels ta, .get_predicted_token_labels pla],
                .error (.ext e))
            | .ok predicted_labels =>
              match lib.classification_report true_labels predicted_labels 2 with
              | .error e =>
                ([.load_dataset la, .tokenClassifier tca, .fit fa, .predict pa,
                  .get_true_test_labels ta, .get_predicted_token_labels pla,
                  .classification_report true_labels predicted_labels 2],
                  .error (.ext e))
              | .ok report =>
                let events :=
                  [.load_dataset la, .tokenClassifier tca, .fit fa, .predict pa,
                    .get_true_test_labels ta, .get_predicted_token_labels pla,
                    .classification_report true_labels predicted_labels 2]
                match metricsCell pf report with
                | (glued, some e) =>
                  (events ++ glued.map (fun nv => .glue nv.1 nv.2),
                    .error (.py e))
                | (glued, none) =>
                  (events ++ glued.map (fun nv => .glue nv.1 nv.2), .ok ())

/-- The kind of a notebook step, forgetting its arguments. -/
inductive StepTag where
  | load
  | construct
  | fitStep
  | predictStep
  | trueLabels
  | predLabels
  | reportStep
  | glueStep
  deriving DecidableEq, Repr

/-- The kind of an event. -/
def Event.step {DL DS LM Model Preds Labels : Type} :
    Event DL DS LM Model Preds Labels → StepTag
  | .load_dataset _ => .load
  | .tokenClassifier _ => .construct
  | .fit _ => .fitStep
  | .predict _ => .predictStep
  | .get_true_test_labels _ => .trueLabels
  | .get_predicted_token_labels _ => .predLabels
  | .classification_report _ _ _ => .reportStep
  | .glue _ _ => .glueStep

/-- The step kinds of a complete successful run, in program order: load the
data, construct the model, fit, predict, recover true then predicted labels,
format the report, and glue the three metrics. -/
def fullSteps : List StepTag :=
  [.load, .construct, .fitStep, .predictStep, .trueLabels, .predLabels,
    .reportStep, .glueStep, .glueStep, .glueStep]

/-- The single GPU-related argument of an external-call event, when the call
has one. -/
def Event.gpuArg {DL DS LM Model Preds Labels : Type} :
    Event DL DS LM Model Preds Labels → Option (Option Nat)
  | .load_dataset a => some a.num_gpus
  | .fit a => some a.num_gpus
  | .predict a => some a.num_gpus
  | _ => none

/-- The code cells of the notebook, numbered as in the source file (cells 0 to
7, 9, 11, 13, 15, 17 and 19 are markdown). -/
inductive NotebookCell where
  | c3
  | c6
  | c8
  | c10
  | c12
  | c14
  | c16
  | c18
  | c20
  deriving DecidableEq, Repr

/-- The names each code cell binds or rebinds, transcribed from the source:
cell 3 sets `QUICK_RUN`; cell 6 is the imports; cell 8 is the configuration
cell; cells 10 to 20 bind only the data, model, prediction, label, report and
`report_splits` variables (`t` is the `with Timer() as t` binding). -/
def assignedNames : NotebookCell → List String
  | .c3 => ["QUICK_RUN"]
  | .c6 => ["sys", "os", "sb", "torch", "TemporaryDirectory", "wikigold",
      "Timer", "classification_report", "TokenClassifier"]
  | .c8 => ["TEST_DATA_FRACTION", "TRAIN_SAMPLE_RATIO", "TEST_SAMPLE_RATIO",
      "NUM_TRAIN_EPOCHS", "DATA_PATH", "CACHE_DIR", "RANDOM_SEED",
      "MODEL_NAME", "DO_LOWER_CASE", "MAX_SEQ_LENGTH", "TRAILING_PIECE_TAG",
      "DEVICE", "BATCH_SIZE"]
  | .c10 => ["train_dataloader", "test_dataloader", "label_map", "test_dataset"]
  | .c12 => ["model", "t"]
  | .c14 => ["t", "preds"]
  | .c16 => ["true_labels"]
  | .c18 => ["predicted_labels", "report"]
  | .c20 => ["report_splits"]

/-- The code cells that execute after the configuration cell, in order. -/
def cellsAfterConfig : List NotebookCell :=
  [.c10, .c12, .c14, .c16, .c18, .c20]

/-- The names of the configuration constants the configuration cell creates. -/
def configConstantNames : List String :=
  ["TEST_DATA_FRACTION", "TRAIN_SAMPLE_RATIO", "TEST_SAMPLE_RATIO",
    "NUM_TRAIN_EPOCHS", "DATA_PATH", "CACHE_DIR", "RANDOM_SEED", "MODEL_NAME",
    "DO_LOWER_CASE", "MAX_SEQ_LENGTH", "TRAILING_PIECE_TAG", "DEVICE",
    "BATCH_SIZE"]

/-- A concrete external library over trivial data types in which every call
succeeds and the report has the usual seqeval shape; used to instantiate the
universally quantified theorems at a concrete input. -/
def demoLib : ExtLib Unit Unit Unit Unit Unit Unit Unit :=
  { load_dataset := fun _ => .ok ((), (), (), ())
    label_map_len := fun _ => 5
    tokenClassifier := fun _ => .ok ()
    fit := fun _ _ => .ok ()
    predict := fun _ _ => .ok ()
    get_true_test_labels := fun _ _ => .ok ()
    get_predicted_token_labels := fun _ _ => .ok ()
    classification_report := fun _ _ _ => .ok "h\nmicro avg 0.80 0.70 0.75\n" }

/-- A concrete external library whose dataset download fails. -/
def loadFailLib : ExtLib Unit Unit Unit Unit Unit Unit Unit :=
  { demoLib with load_dataset := fun _ => .error () }

end NerWikigold

namespace NerWikigold

/-- C1: with `QUICK_RUN = True` the configuration cell yields sampling ratios 0.1
and 1 training epoch; with `QUICK_RUN = False` it yields sampling ratios 1.0 and
5 training epochs, in every environment. -/
theorem quick_run_overrides (env : Env) :
    (mkConfig true env).trainSampleRatio = 0.1 ∧
    (mkConfig true env).testSampleRatio = 0.1 ∧
    (mkConfig true env).NUM_TRAIN_EPOCHS = 1 ∧
    (mkConfig false env).trainSampleRatio = 1 ∧
    (mkConfig false env).testSampleRatio = 1 ∧
    (mkConfig false env).NUM_TRAIN_EPOCHS = 5 :=
  ⟨rfl, rfl, rfl, rfl, rfl, rfl⟩

/-- C3: the `QUICK_RUN` flag changes only the sampling ratios and the epoch
count: every other constant set in the configuration cell has the same value for
both flag values, in every environment. -/
theorem quick_run_frame (env : Env) :
    (mkConfig true env).TEST_DATA_FRACTION = (mkConfig false env).TEST_DATA_FRACTION ∧
    (mkConfig true env).RANDOM_SEED = (mkConfig false env).RANDOM_SEED ∧
    (mkConfig true env).MODEL_NAME = (mkConfig false env).MODEL_NAME ∧
    (mkConfig true env).DO_LOWER_CASE = (mkConfig false env).DO_LOWER_CASE ∧
    (mkConfig true env).MAX_SEQ_LENGTH = (mkConfig false env).MAX_SEQ_LENGTH ∧
    (mkConfig true env).TRAILING_PIECE_TAG = (mkConfig false env).TRAILING_PIECE_TAG ∧
    (mkConfig true env).DEVICE = (mkConfig false env).DEVICE ∧
    (mkConfig true env).BATCH_SIZE = (mkConfig false env).BATCH_SIZE :=
  ⟨rfl, rfl, rfl, rfl, rfl, rfl, rfl, rfl⟩

/-- C9 counterexample: `BATCH_SIZE` is not the only configuration value whose
result depends on the execution environment.  Two environments with the same
`torch.cuda.is_available()` answer (so the same `BATCH_SIZE`) but different
fresh temporary-directory names produce different configurations: `DATA_PATH`
(a `TemporaryDirectory().name`) also depends on the environment. -/
theorem batch_size_not_only_env_dependent :
    (mkConfig false ⟨false, "/tmp/a", "/tmp/c"⟩).BATCH_SIZE
      = (mkConfig false ⟨false, "/tmp/b", "/tmp/d"⟩).BATCH_SIZE ∧
    (mkConfig false ⟨false, "/tmp/a", "/tmp/c"⟩).DATA_PATH
      ≠ (mkConfig false ⟨false, "/tmp/b", "/tmp/d"⟩).DATA_PATH :=
  ⟨rfl, by decide⟩

/-- C9 amended: `BATCH_SIZE` is 16 when `torch.cuda.is_available()` is true and
8 otherwise, independently of `QUICK_RUN`; and apart from the temporary-directory
paths `DATA_PATH` and `CACHE_DIR`, it is the only configuration value whose
result depends on the execution environment. -/
theorem pyIndexNeg2_eq_secondToLast (xs : List String) :
    pyIndexNeg2 xs = (match secondToLast? xs with
      | some a => Except.ok a
      | none => Except.error PyError.indexError) := by
  by_cases h : 2 ≤ xs.length
  · simp only [pyIndexNeg2, secondToLast?, if_pos h]
    cases hg : xs[xs.length - 2]? with
    | none => exact absurd (List.getElem?_eq_none_iff.mp hg) (by omega)
    | some a => simp [pyIndex, hg]
  · simp [pyIndexNeg2, secondToLast?, h]

theorem secondToLast?_some_iff (xs : List String) (a : String) :
    secondToLast? xs = some a ↔ 2 ≤ xs.length ∧ xs.getD (xs.length - 2) "" = a := by
  unfold secondToLast?
  by_cases h : 2 ≤ xs.length
  · simp only [if_pos h, List.getD_eq_getElem?_getD]
    cases hg : xs[xs.length - 2]? with
    | none => exact absurd (List.getElem?_eq_none_iff.mp hg) (by omega)
    | some b => simp [hg, h]
  · simp [h]

theorem metricsCell_shape (pf : String → Option ℚ) (report : String) :
    (∃ p r f, metricsCell pf report = ([("precision", p), ("recall", r), ("f1", f)], none)) ∨
    ((metricsCell pf report).2 ≠ none ∧
      ((metricsCell pf report).1 = [] ∨
        (∃ p, (metricsCell pf report).1 = [("precision", p)]) ∨
        (∃ p r, (metricsCell pf report).1 = [("precision", p), ("recall", r)]))) := by
  unfold metricsCell
  cases hL : pyIndexNeg2 (pySplitOnNl report) with
  | error e => simp
  | ok line =>
    simp only []
    cases h2 : (pySplit line)[2]? with
    | none => simp [pyIndex, h2]
    | some s2 =>
      cases hp2 : pf s2 with
      | none => simp [pyIndex, pyFloat, h2, hp2]
      | some p =>
        cases h3 : (pySplit line)[3]? with
        | none => simp [pyIndex, pyFloat, h2, hp2, h3]
        | some s3 =>
          cases hp3 : pf s3 with
          | none => simp [pyIndex, pyFloat, h2, hp2, h3, hp3]
          | some r =>
            cases h4 : (pySplit line)[4]? with
            | none => simp [pyIndex, pyFloat, h2, hp2, h3, hp3, h4]
            | some s4 =>
              cases hp4 : pf s4 with
              | none => simp [pyIndex, pyFloat, h2, hp2, h3, hp3, h4, hp4]
              | some f =>
                exact Or.inl ⟨p, r, f, by
                  simp [pyIndex, pyFloat, h2, hp2, h3, hp3, h4, hp4]⟩

theorem runNotebook_cases {ε DL DS LM Model Preds Labels : Type}
    (q : Bool) (env : Env) (lib : ExtLib ε DL DS LM Model Preds Labels)
    (pf : String → Option ℚ) :
    (∃ e, lib.load_dataset (loadArgsOf (mkConfig q env)) = .error e ∧
      runNotebook q env lib pf =
        ([.load_dataset (loadArgsOf (mkConfig q env))], .error (.ext e))) ∨
    (∃ td tl lm ds e,
      lib.load_dataset (loadArgsOf (mkConfig q env)) = .ok (td, tl, lm, ds) ∧
      lib.tokenClassifier (tcArgsOf (mkConfig q env) (lib.label_map_len lm)) = .error e ∧
      runNotebook q env lib pf =
        ([.load_dataset (loadArgsOf (mkConfig q env)),
          .tokenClassifier (tcArgsOf (mkConfig q env) (lib.label_map_len lm))],
          .error (.ext e))) ∨
    (∃ td tl lm ds model e,
      lib.load_dataset (loadArgsOf (mkConfig q env)) = .ok (td, tl, lm, ds) ∧
      lib.tokenClassifier (tcArgsOf (mkConfig q env) (lib.label_map_len lm)) = .ok model ∧
      lib.fit model (fitArgsOf (mkConfig q env) td) = .error e ∧
      runNotebook q env lib pf =
        ([.load_dataset (loadArgsOf (mkConfig q env)),
          .tokenClassifier (tcArgsOf (mkConfig q env) (lib.label_map_len lm)),
          .fit (fitArgsOf (mkConfig q env) td)], .error (.ext e))) ∨
    (∃ td tl lm ds model e,
      lib.load_dataset (loadArgsOf (mkConfig q env)) = .ok (td, tl, lm, ds) ∧
      lib.tokenClassifier (tcArgsOf (mkConfig q env) (lib.label_map_len lm)) = .ok model ∧
      lib.fit model (fitArgsOf (mkConfig q env) td) = .ok () ∧
      lib.predict model (predictArgsOf tl) = .error e ∧
      runNotebook q env lib pf =
        ([.load_dataset (loadArgsOf (mkConfig q env)),
          .tokenClassifier (tcArgsOf (mkConfig q env) (lib.label_map_len lm)),
          .fit (fitArgsOf (mkConfig q env) td),
          .predict (predictArgsOf tl)], .error (.ext e))) ∨
    (∃ td tl lm ds model preds e,
      lib.load_dataset (loadArgsOf (mkConfig q env)) = .ok (td, tl, lm, ds) ∧
      lib.tokenClassifier (tcArgsOf (mkConfig q env) (lib.label_map_len lm)) = .ok model ∧
      lib.fit model (fitArgsOf (mkConfig q env) td) = .ok () ∧
      lib.predict model (predictArgsOf tl) = .ok preds ∧
      lib.get_true_test_labels model ⟨lm, ds⟩ = .error e ∧
      runNotebook q env lib pf =
        ([.load_dataset (loadArgsOf (mkConfig q env)),
          .tokenClassifier (tcArgsOf (mkConfig q env) (lib.label_map_len lm)),
          .fit (fitArgsOf (mkConfig q env) td),
          .predict (predictArgsOf tl),
          .get_true_test_labels ⟨lm, ds⟩], .error (.ext e))) ∨
    (∃ td tl lm ds model preds tlbl e,
      lib.load_dataset (loadArgsOf (mkConfig q env)) = .ok (td, tl, lm, ds) ∧
      lib.tokenClassifier (tcArgsOf (mkConfig q env) (lib.label_map_len lm)) = .ok model ∧
      lib.fit model (fitArgsOf (mkConfig q env) td) = .ok () ∧
      lib.predict model (predictArgsOf tl) = .ok preds ∧
      lib.get_true_test_labels model ⟨lm, ds⟩ = .ok tlbl ∧
      lib.get_predicted_token_labels model ⟨preds, lm, ds⟩ = .error e ∧
      runNotebook q env lib pf =
        ([.load_dataset (loadArgsOf (mkConfig q env)),
          .tokenClassifier (tcArgsOf (mkConfig q env) (lib.label_map_len lm)),
          .fit (fitArgsOf (mkConfig q env) td),
          .predict (predictArgsOf tl),
          .get_true_test_labels ⟨lm, ds⟩,
          .get_predicted_token_labels ⟨preds, lm, ds⟩], .error (.ext e))) ∨
    (∃ td tl lm ds model preds tlbl plbl e,
      lib.load_dataset (loadArgsOf (mkConfig q env)) = .ok (td, tl, lm, ds) ∧
      lib.tokenClassifier (tcArgsOf (mkConfig q env) (lib.label_map_len lm)) = .ok model ∧
      lib.fit model (fitArgsOf (mkConfig q env) td) = .ok () ∧
      lib.predict model (predictArgsOf tl) = .ok preds ∧
      lib.get_true_test_labels model ⟨lm, ds⟩ = .ok tlbl ∧
      lib.get_predicted_token_labels model ⟨preds, lm, ds⟩ = .ok plbl ∧
      lib.classification_report tlbl plbl 2 = .error e ∧
      runNotebook q env lib pf =
        ([.load_dataset (loadArgsOf (mkConfig q env)),
          .tokenClassifier (tcArgsOf (mkConfig q env) (lib.label_map_len lm)),
          .fit (fitArgsOf (mkConfig q env) td),
          .predict (predictArgsOf tl),
          .get_true_test_labels ⟨lm, ds⟩,
          .get_predicted_token_labels ⟨preds, lm, ds⟩,
          .classification_report tlbl plbl 2], .error (.ext e))) ∨
    (∃ td tl lm ds model preds tlbl plbl report glued e,
      lib.load_dataset (loadArgsOf (mkConfig q env)) = .ok (td, tl, lm, ds) ∧
      lib.tokenClassifier (tcArgsOf (mkConfig q env) (lib.label_map_len lm)) = .ok model ∧
      lib.fit model (fitArgsOf (mkConfig q env) td) = .ok () ∧
      lib.predict model (predictArgsOf tl) = .ok preds ∧
      lib.get_true_test_labels model ⟨lm, ds⟩ = .ok tlbl ∧
      lib.get_predicted_token_labels model ⟨preds, lm, ds⟩ = .ok plbl ∧
      lib.classification_report tlbl plbl 2 = .ok report ∧
      metricsCell pf report = (glued, some e) ∧
      runNotebook q env lib pf =
        ([.load_dataset (loadArgsOf (mkConfig q env)),
          .tokenClassifier (tcArgsOf (mkConfig q env) (lib.label_map_len lm)),
          .fit (fitArgsOf (mkConfig q env) td),
          .predict (predictArgsOf tl),
          .get_true_test_labels ⟨lm, ds⟩,
          .get_predicted_token_labels ⟨preds, lm, ds⟩,
          .classification_report tlbl plbl 2]
            ++ glued.map (fun nv => .glue nv.1 nv.2), .error (.py e))) ∨
    (∃ td tl lm ds model preds tlbl plbl report glued,
      lib.load_dataset (loadArgsOf (mkConfig q env)) = .ok (td, tl, lm, ds) ∧
      lib.tokenClassifier (tcArgsOf (mkConfig q env) (lib.label_map_len lm)) = .ok model ∧
      lib.fit model (fitArgsOf (mkConfig q env) td) = .ok () ∧
      lib.predict model (predictArgsOf tl) = .ok preds ∧
      lib.get_true_test_labels model ⟨lm, ds⟩ = .ok tlbl ∧
      lib.get_predicted_token_labels model ⟨preds, lm, ds⟩ = .ok plbl ∧
      lib.classification_report tlbl plbl 2 = .ok report ∧
      metricsCell pf report = (glued, none) ∧
      runNotebook q env lib pf =
        ([.load_dataset (loadArgsOf (mkConfig q env)),
          .tokenClassifier (tcArgsOf (mkConfig q env) (lib.label_map_len lm)),
          .fit (fitArgsOf (mkConfig q env) td),
          .predict (predictArgsOf tl),
          .get_true_test_labels ⟨lm, ds⟩,
          .get_predicted_token_labels ⟨preds, lm, ds⟩,
          .classification_report tlbl plbl 2]
            ++ glued.map (fun nv => .glue nv.1 nv.2), .ok ())) := by
  simp only [runNotebook]
  cases hload : lib.load_dataset (loadArgsOf (mkConfig q env)) with
  | error e => exact Or.inl ⟨e, rfl, rfl⟩
  | ok quad =>
    obtain ⟨td, tl, lm, ds⟩ := quad
    cases htc : lib.tokenClassifier (tcArgsOf (mkConfig q env) (lib.label_map_len lm)) with
    | error e => exact Or.inr (Or.inl ⟨td, tl, lm, ds, e, rfl, htc, by simp [htc]⟩)
    | ok model =>
      cases hfit : lib.fit model (fitArgsOf (mkConfig q env) td) with
      | error e =>
        exact Or.inr (Or.inr (Or.inl
          ⟨td, tl, lm, ds, model, e, rfl, htc, hfit, by simp [htc, hfit]⟩))
      | ok u =>
        cases hpred : lib.predict model (predictArgsOf tl) with
        | error e =>
          exact Or.inr (Or.inr (Or.inr (Or.inl
            ⟨td, tl, lm, ds, model, e, rfl, htc, hfit, hpred,
              by simp [htc, hfit, hpred]⟩)))
        | ok preds =>
          cases htrue : lib.get_true_test_labels model ⟨lm, ds⟩ with
          | error e =>
            exact Or.inr (Or.inr (Or.inr (Or.inr (Or.inl
              ⟨td, tl, lm, ds, model, preds, e, rfl, htc, hfit, hpred, htrue,
                by simp [htc, hfit, hpred, htrue]⟩))))
          | ok tlbl =>
            cases hpl : lib.get_predicted_token_labels model ⟨preds, lm, ds⟩ with
            | error e =>
              exact Or.inr (Or.inr (Or.inr (Or.inr (Or.inr (Or.inl
                ⟨td, tl, lm, ds, model, preds, tlbl, e, rfl, htc, hfit, hpred,
                  htrue, hpl, by simp [htc, hfit, hpred, htrue, hpl]⟩)))))
            | ok plbl =>
              cases hrep : lib.classification_report tlbl plbl 2 with
              | error e =>
                exact Or.inr (Or.inr (Or.inr (Or.inr (Or.inr (Or.inr (Or.inl
                  ⟨td, tl, lm, ds, model, preds, tlbl, plbl, e, rfl, htc, hfit,
                    hpred, htrue, hpl, hrep,
                    by simp [htc, hfit, hpred, htrue, hpl, hrep]⟩))))))
              | ok report =>
                cases hm : metricsCell pf report with
                | mk glued err =>
                  cases err with
                  | some e =>
                    exact Or.inr (Or.inr (Or.inr (Or.inr (Or.inr (Or.inr (Or.inr
                      (Or.inl ⟨td, tl, lm, ds, model, preds, tlbl, plbl, report,
                        glued, e, rfl, htc, hfit, hpred, htrue, hpl, hrep, hm,
                        by simp [htc, hfit, hpred, htrue, hpl, hrep, hm]⟩)))))))
                  | none =>
                    exact Or.inr (Or.inr (Or.inr (Or.inr (Or.inr (Or.inr (Or.inr
                      (Or.inr ⟨td, tl, lm, ds, model, preds, tlbl, plbl, report,
                        glued, rfl, htc, hfit, hpred, htrue, hpl, hrep, hm,
                        by simp [htc, hfit, hpred, htrue, hpl, hrep, hm]⟩)))))))

theorem secondToLast?_none_iff (xs : List String) :
    secondToLast? xs = none ↔ xs.length < 2 := by
  unfold secondToLast?
  by_cases h : 2 ≤ xs.length
  · simp only [if_pos h]
    cases hg : xs[xs.length - 2]? with
    | none => exact absurd (List.getElem?_eq_none_iff.mp hg) (by omega)
    | some b =>
      constructor
      · intro hc; cases hc
      · intro hc; exact absurd hc (by omega)
  · simp only [if_neg h]
    constructor
    · intro _; omega
    · intro _; trivial

/-- C2: the metric-extraction cell refines its description: it succeeds with
output `out` exactly when splitting the report on newlines, taking the
second-to-last line, splitting it on whitespace and converting the fields at
indices 2, 3 and 4 to float yields precision, recall and f1, recorded in that
order. -/
theorem metrics_extraction_described (pf : String → Option ℚ) (report : String)
    (out : List (String × ℚ)) :
    metricsDescribed pf report = some out ↔ metricsCell pf report = (out, none) := by
  unfold metricsCell metricsDescribed
  rw [pyIndexNeg2_eq_secondToLast]
  cases hL : secondToLast? (pySplitOnNl report) with
  | none => simp
  | some line =>
    simp only []
    cases h2 : (pySplit line)[2]? with
    | none => simp [pyIndex, h2]
    | some s2 =>
      cases hp2 : pf s2 with
      | none => simp [pyIndex, pyFloat, h2, hp2]
      | some p =>
        cases h3 : (pySplit line)[3]? with
        | none => simp [pyIndex, pyFloat, h2, hp2, h3]
        | some s3 =>
          cases hp3 : pf s3 with
          | none => simp [pyIndex, pyFloat, h2, hp2, h3, hp3]
          | some r =>
            cases h4 : (pySplit line)[4]? with
            | none => simp [pyIndex, pyFloat, h2, hp2, h3, hp3, h4]
            | some s4 =>
              cases hp4 : pf s4 with
              | none => simp [pyIndex, pyFloat, h2, hp2, h3, hp3, h4, hp4]
              | some f =>
                simp [pyIndex, pyFloat, h2, hp2, h3, hp3, h4, hp4, eq_comm]

/-- C10: the metric-extraction cell is partial: it completes without raising
exactly when the report has a second-to-last line after splitting on newlines,
that line has at least five whitespace-separated fields, and the fields at
indices 2, 3 and 4 each parse as a float; and any exception it raises is an
`IndexError` or a `ValueError`. -/
theorem metrics_extraction_partiality (pf : String → Option ℚ) (report : String) :
    ((metricsCell pf report).2 = none ↔
      (2 ≤ (reportLines report).length ∧
        5 ≤ (reportFields report).length ∧
        (pf ((reportFields report).getD 2 "")).isSome ∧
        (pf ((reportFields report).getD 3 "")).isSome ∧
        (pf ((reportFields report).getD 4 "")).isSome)) ∧
    ((metricsCell pf report).2 = none ∨
      (metricsCell pf report).2 = some PyError.indexError ∨
      (metricsCell pf report).2 = some PyError.valueError) := by
  constructor
  · unfold metricsCell
    rw [pyIndexNeg2_eq_secondToLast]
    cases hL : secondToLast? (pySplitOnNl report) with
    | none =>
      have hlen : (pySplitOnNl report).length < 2 := (secondToLast?_none_iff _).mp hL
      simp only [reportLines]
      constructor
      · intro hc; cases hc
      · rintro ⟨h2, -⟩; omega
    | some line =>
      obtain ⟨hlen, hline⟩ := (secondToLast?_some_iff _ _).mp hL
      have hfields : reportFields report = pySplit line := by
        unfold reportFields reportLines
        rw [hline]
      rw [hfields]
      simp only [reportLines, hlen, true_and]
      cases h2 : (pySplit line)[2]? with
      | none =>
        have hl2 := List.getElem?_eq_none_iff.mp h2
        simp only [pyIndex, h2]
        constructor
        · intro hc; cases hc
        · rintro ⟨h5, -⟩; omega
      | some s2 =>
        have hd2 : (pySplit line).getD 2 "" = s2 := by
          simp [List.getD_eq_getElem?_getD, h2]
        rw [hd2]
        cases hp2 : pf s2 with
        | none => simp [pyIndex, pyFloat, h2, hp2]
        | some p =>
          cases h3 : (pySplit line)[3]? with
          | none =>
            have hl3 := List.getElem?_eq_none_iff.mp h3
            simp only [pyIndex, pyFloat, h2, h3, hp2]
            constructor
            · intro hc; cases hc
            · rintro ⟨h5, -⟩; omega
          | some s3 =>
            have hd3 : (pySplit line).getD 3 "" = s3 := by
              simp [List.getD_eq_getElem?_getD, h3]
            rw [hd3]
            cases hp3 : pf s3 with
            | none => simp [pyIndex, pyFloat, h2, h3, hp2, hp3]
            | some r =>
              cases h4 : (pySplit line)[4]? with
              | none =>
                have hl4 := List.getElem?_eq_none_iff.mp h4
                simp only [pyIndex, pyFloat, h2, h3, h4, hp2, hp3]
                constructor
                · intro hc; cases hc
                · rintro ⟨h5, -⟩; omega
              | some s4 =>
                have hd4 : (pySplit line).getD 4 "" = s4 := by
                  simp [List.getD_eq_getElem?_getD, h4]
                rw [hd4]
                have hl4 : 4 < (pySplit line).length :=
                  (List.getElem?_eq_some_iff.mp h4).1
                cases hp4 : pf s4 with
                | none => simp [pyIndex, pyFloat, h2, h3, h4, hp2, hp3, hp4]
                | some f =>
                  simp [pyIndex, pyFloat, h2, h3, h4, hp2, hp3, hp4]
                  omega
  · rcases h : (metricsCell pf report).2 with - | e
    · exact Or.inl rfl
    · cases e
      · exact Or.inr (Or.inl rfl)
      · exact Or.inr (Or.inr rfl)

theorem batch_size_env_dependence (q : Bool) (e1 e2 : Env) :
    (mkConfig q e1).BATCH_SIZE = (if e1.cuda_is_available then 16 else 8) ∧
    (mkConfig true e1).BATCH_SIZE = (mkConfig false e1).BATCH_SIZE ∧
    (mkConfig q e1).TEST_DATA_FRACTION = (mkConfig q e2).TEST_DATA_FRACTION ∧
    (mkConfig q e1).trainSampleRatio = (mkConfig q e2).trainSampleRatio ∧
    (mkConfig q e1).testSampleRatio = (mkConfig q e2).testSampleRatio ∧
    (mkConfig q e1).NUM_TRAIN_EPOCHS = (mkConfig q e2).NUM_TRAIN_EPOCHS ∧
    (mkConfig q e1).RANDOM_SEED = (mkConfig q e2).RANDOM_SEED ∧
    (mkConfig q e1).MODEL_NAME = (mkConfig q e2).MODEL_NAME ∧
    (mkConfig q e1).DO_LOWER_CASE = (mkConfig q e2).DO_LOWER_CASE ∧
    (mkConfig q e1).MAX_SEQ_LENGTH = (mkConfig q e2).MAX_SEQ_LENGTH ∧
    (mkConfig q e1).TRAILING_PIECE_TAG = (mkConfig q e2).TRAILING_PIECE_TAG ∧
    (mkConfig q e1).DEVICE = (mkConfig q e2).DEVICE :=
  ⟨rfl, rfl, rfl, rfl, rfl, rfl, rfl, rfl, rfl, rfl, rfl, rfl⟩

/-- C5: every configuration constant is created exactly once, in the
configuration cell: no code cell before the configuration cell binds any of
them, and no code cell executed after the configuration cell reassigns any of
them. -/
theorem config_constants_immutable :
    (configConstantNames.all fun n => (assignedNames .c8).contains n) = true ∧
    (([NotebookCell.c3, NotebookCell.c6].all fun c =>
      configConstantNames.all fun n => !((assignedNames c).contains n)) = true) ∧
    (cellsAfterConfig.all fun c =>
      configConstantNames.all fun n => !((assignedNames c).contains n)) = true := by
  exact ⟨by decide, by decide, by decide⟩

/-- C7: every exception an external call raises propagates unmodified and halts
the run: for each of the seven call sites, if the call fails with `e` (its
predecessors having succeeded), the run ends with exactly that error and the
trace stops at the failing call, so no later orchestration step executes. -/
theorem errors_propagate_unmodified {ε DL DS LM Model Preds Labels : Type}
    (q : Bool) (env : Env) (lib : ExtLib ε DL DS LM Model Preds Labels)
    (pf : String → Option ℚ) :
    (∀ e, lib.load_dataset (loadArgsOf (mkConfig q env)) = .error e →
      runNotebook q env lib pf =
        ([.load_dataset (loadArgsOf (mkConfig q env))], .error (.ext e))) ∧
    (∀ td tl lm ds e,
      lib.load_dataset (loadArgsOf (mkConfig q env)) = .ok (td, tl, lm, ds) →
      lib.tokenClassifier (tcArgsOf (mkConfig q env) (lib.label_map_len lm)) = .error e →
      runNotebook q env lib pf =
        ([.load_dataset (loadArgsOf (mkConfig q env)),
          .tokenClassifier (tcArgsOf (mkConfig q env) (lib.label_map_len lm))],
          .error (.ext e))) ∧
    (∀ td tl lm ds model e,
      lib.load_dataset (loadArgsOf (mkConfig q env)) = .ok (td, tl, lm, ds) →
      lib.tokenClassifier (tcArgsOf (mkConfig q env) (lib.label_map_len lm)) = .ok model →
      lib.fit model (fitArgsOf (mkConfig q env) td) = .error e →
      runNotebook q env lib pf =
        ([.load_dataset (loadArgsOf (mkConfig q env)),
          .tokenClassifier (tcArgsOf (mkConfig q env) (lib.label_map_len lm)),
          .fit (fitArgsOf (mkConfig q env) td)], .error (.ext e))) ∧
    (∀ td tl lm ds model e,
      lib.load_dataset (loadArgsOf (mkConfig q env)) = .ok (td, tl, lm, ds) →
      lib.tokenClassifier (tcArgsOf (mkConfig q env) (lib.label_map_len lm)) = .ok model →
      lib.fit model (fitArgsOf (mkConfig q env) td) = .ok () →
      lib.predict model (predictArgsOf tl) = .error e →
      runNotebook q env lib pf =
        ([.load_dataset (loadArgsOf (mkConfig q env)),
          .tokenClassifier (tcArgsOf (mkConfig q env) (lib.label_map_len lm)),
          .fit (fitArgsOf (mkConfig q env) td),
          .predict (predictArgsOf tl)], .error (.ext e))) ∧
    (∀ td tl lm ds model preds e,
      lib.load_dataset (loadArgsOf (mkConfig q env)) = .ok (td, tl, lm, ds) →
      lib.tokenClassifier (tcArgsOf (mkConfig q env) (lib.label_map_len lm)) = .ok model →
      lib.fit model (fitArgsOf (mkConfig q env) td) = .ok () →
      lib.predict model (predictArgsOf tl) = .ok preds →
      lib.get_true_test_labels model ⟨lm, ds⟩ = .error e →
      runNotebook q env lib pf =
        ([.load_dataset (loadArgsOf (mkConfig q env)),
          .tokenClassifier (tcArgsOf (mkConfig q env) (lib.label_map_len lm)),
          .fit (fitArgsOf (mkConfig q env) td),
          .predict (predictArgsOf tl),
          .get_true_test_labels ⟨lm, ds⟩], .error (.ext e))) ∧
    (∀ td tl lm ds model preds tlbl e,
      lib.load_dataset (loadArgsOf (mkConfig q env)) = .ok (td, tl, lm, ds) →
      lib.tokenClassifier (tcArgsOf (mkConfig q env) (lib.label_map_len lm)) = .ok model →
      lib.fit model (fitArgsOf (mkConfig q env) td) = .ok () →
      lib.predict model (predictArgsOf tl) = .ok preds →
      lib.get_true_test_labels model ⟨lm, ds⟩ = .ok tlbl →
      lib.get_predicted_token_labels model ⟨preds, lm, ds⟩ = .error e →
      runNotebook q env lib pf =
        ([.load_dataset (loadArgsOf (mkConfig q env)),
          .tokenClassifier (tcArgsOf (mkConfig q env) (lib.label_map_len lm)),
          .fit (fitArgsOf (mkConfig q env) td),
          .predict (predictArgsOf tl),
          .get_true_test_labels ⟨lm, ds⟩,
          .get_predicted_token_labels ⟨preds, lm, ds⟩], .error (.ext e))) ∧
    (∀ td tl lm ds model preds tlbl plbl e,
      lib.load_dataset (loadArgsOf (mkConfig q env)) = .ok (td, tl, lm, ds) →
      lib.tokenClassifier (tcArgsOf (mkConfig q env) (lib.label_map_len lm)) = .ok model →
      lib.fit model (fitArgsOf (mkConfig q env) td) = .ok () →
      lib.predict model (predictArgsOf tl) = .ok preds →
      lib.get_true_test_labels model ⟨lm, ds⟩ = .ok tlbl →
      lib.get_predicted_token_labels model ⟨preds, lm, ds⟩ = .ok plbl →
      lib.classification_report tlbl plbl 2 = .error e →
      runNotebook q env lib pf =
        ([.load_dataset (loadArgsOf (mkConfig q env)),
          .tokenClassifier (tcArgsOf (mkConfig q env) (lib.label_map_len lm)),
          .fit (fitArgsOf (mkConfig q env) td),
          .predict (predictArgsOf tl),
          .get_true_test_labels ⟨lm, ds⟩,
          .get_predicted_token_labels ⟨preds, lm, ds⟩,
          .classification_report tlbl plbl 2], .error (.ext e))) := by
  refine ⟨?_, ?_, ?_, ?_, ?_, ?_, ?_⟩
  · intro e h
    simp [runNotebook, h]
  · intro td tl lm ds e hok h
    simp [runNotebook, hok, h]
  · intro td tl lm ds model e hok htc h
    simp [runNotebook, hok, htc, h]
  · intro td tl lm ds model e hok htc hfit h
    simp [runNotebook, hok, htc, hfit, h]
  · intro td tl lm ds model preds e hok htc hfit hpred h
    simp [runNotebook, hok, htc, hfit, hpred, h]
  · intro td tl lm ds model preds tlbl e hok htc hfit hpred htrue h
    simp [runNotebook, hok, htc, hfit, hpred, htrue, h]
  · intro td tl lm ds model preds tlbl plbl e hok htc hfit hpred htrue hpl h
    simp [runNotebook, hok, htc, hfit, hpred, htrue, hpl, h]

/-- C4: the label mapping returned by `wikigold.load_dataset` is threaded
unchanged into every consumer: whenever the load succeeds with label map `lm`,
every `TokenClassifier` construction in the trace uses
`num_labels = len(lm)`, and every `get_true_test_labels` and
`get_predicted_token_labels` call in the trace receives exactly `lm` as its
label map. -/
theorem label_map_threaded {ε DL DS LM Model Preds Labels : Type}
    (q : Bool) (env : Env) (lib : ExtLib ε DL DS LM Model Preds Labels)
    (pf : String → Option ℚ) (td tl : DL) (lm : LM) (ds : DS)
    (h : lib.load_dataset (loadArgsOf (mkConfig q env)) = .ok (td, tl, lm, ds)) :
    (∀ a : TokenClassifierArgs,
      Event.tokenClassifier a ∈ (runNotebook q env lib pf).1 →
        a.num_labels = lib.label_map_len lm) ∧
    (∀ a : TrueLabelsArgs LM DS,
      Event.get_true_test_labels a ∈ (runNotebook q env lib pf).1 →
        a.label_map = lm) ∧
    (∀ a : PredLabelsArgs Preds LM DS,
      Event.get_predicted_token_labels a ∈ (runNotebook q env lib pf).1 →
        a.label_map = lm) := by
  rcases runNotebook_cases q env lib pf with
      ⟨e, h1, hrun⟩ |
      ⟨td', tl', lm', ds', e, h1, h2, hrun⟩ |
      ⟨td', tl', lm', ds', model', e, h1, h2, h3, hrun⟩ |
      ⟨td', tl', lm', ds', model', e, h1, h2, h3, h4, hrun⟩ |
      ⟨td', tl', lm', ds', model', preds', e, h1, h2, h3, h4, h5, hrun⟩ |
      ⟨td', tl', lm', ds', model', preds', tlbl', e, h1, h2, h3, h4, h5, h6, hrun⟩ |
      ⟨td', tl', lm', ds', model', preds', tlbl', plbl', e, h1, h2, h3, h4, h5,
        h6, h7, hrun⟩ |
      ⟨td', tl', lm', ds', model', preds', tlbl', plbl', report', glued', e, h1,
        h2, h3, h4, h5, h6, h7, hm, hrun⟩ |
      ⟨td', tl', lm', ds', model', preds', tlbl', plbl', report', glued', h1,
        h2, h3, h4, h5, h6, h7, hm, hrun⟩
  · rw [h] at h1; simp at h1
  all_goals (
    rw [h] at h1
    simp only [Except.ok.injEq, Prod.mk.injEq] at h1
    obtain ⟨rfl, rfl, rfl, rfl⟩ := h1
    rw [hrun]
    refine ⟨fun a ha => ?_, fun a ha => ?_, fun a ha => ?_⟩ <;> simp at ha <;>
      subst ha <;> rfl)

/-- C4 witness: in a successful run with the concrete library, the
`TokenClassifier` construction in the trace uses the length of the label map
returned by `load_dataset` as `num_labels`. -/
theorem label_map_threaded_witness :
    (tcArgsOf (mkConfig false ⟨false, "d", "c"⟩)
        (demoLib.label_map_len ())).num_labels = demoLib.label_map_len () :=
  (label_map_threaded false ⟨false, "d", "c"⟩ demoLib (fun _ => some 0)
      () () () () rfl).1
    (tcArgsOf (mkConfig false ⟨false, "d", "c"⟩) (demoLib.label_map_len ()))
    (by decide)

/-- C8: GPU configuration is conveyed solely through the `num_gpus` parameter:
every GPU-related argument in the trace is `num_gpus` with the same value
`None`; in a successful run exactly the three calls `load_dataset`, `fit` and
`predict` carry one, in that order; and the `DEVICE` selector constant set in
the configuration cell is `"cuda"`. -/
theorem filterMap_glue_gpuArg {DL DS LM Model Preds Labels : Type}
    (glued : List (String × ℚ)) :
    (glued.map fun nv =>
        (Event.glue nv.1 nv.2 : Event DL DS LM Model Preds Labels)).filterMap
      Event.gpuArg = [] := by
  induction glued with
  | nil => rfl
  | cons a l ih => simp [Event.gpuArg, ih]

theorem gpu_config_single_param {ε DL DS LM Model Preds Labels : Type}
    (q : Bool) (env : Env) (lib : ExtLib ε DL DS LM Model Preds Labels)
    (pf : String → Option ℚ) :
    (((runNotebook q env lib pf).1.filterMap Event.gpuArg).all
      fun v => v == none) = true ∧
    ((runNotebook q env lib pf).2 = .ok () →
      (runNotebook q env lib pf).1.filterMap Event.gpuArg = [none, none, none]) ∧
    (mkConfig q env).DEVICE = "cuda" := by
  refine ⟨?_, fun hok => ?_, rfl⟩ <;>
  rcases runNotebook_cases q env lib pf with
      ⟨e, h1, hrun⟩ |
      ⟨td', tl', lm', ds', e, h1, h2, hrun⟩ |
      ⟨td', tl', lm', ds', model', e, h1, h2, h3, hrun⟩ |
      ⟨td', tl', lm', ds', model', e, h1, h2, h3, h4, hrun⟩ |
      ⟨td', tl', lm', ds', model', preds', e, h1, h2, h3, h4, h5, hrun⟩ |
      ⟨td', tl', lm', ds', model', preds', tlbl', e, h1, h2, h3, h4, h5, h6, hrun⟩ |
      ⟨td', tl', lm', ds', model', preds', tlbl', plbl', e, h1, h2, h3, h4, h5,
        h6, h7, hrun⟩ |
      ⟨td', tl', lm', ds', model', preds', tlbl', plbl', report', glued', e, h1,
        h2, h3, h4, h5, h6, h7, hm, hrun⟩ |
      ⟨td', tl', lm', ds', model', preds', tlbl', plbl', report', glued', h1,
        h2, h3, h4, h5, h6, h7, hm, hrun⟩ <;>
  first
  | (rw [hrun] at hok; simp at hok; done)
  | (rw [hrun]
     simp [Event.gpuArg, loadArgsOf, fitArgsOf, predictArgsOf,
       List.filterMap_append, filterMap_glue_gpuArg])

/-- C8 witness: in a successful concrete run the trace carries exactly three
`num_gpus` arguments, all `None`. -/
theorem gpu_config_single_param_witness :
    (runNotebook false ⟨false, "d", "c"⟩ demoLib
        (fun _ => some 0)).1.filterMap Event.gpuArg = [none, none, none] :=
  (gpu_config_single_param false ⟨false, "d", "c"⟩ demoLib (fun _ => some 0)).2.1 rfl

/-- C6: the orchestration steps occur in strict program order: in a successful
run the step kinds of the trace are exactly load, construct, fit, predict,
recover true labels, recover predicted labels, format the report, and the three
metric recordings, each once; and in every run the step kinds are a prefix of
that order (no step is repeated or reordered, and a step is skipped only when
an earlier one fails). -/
theorem orchestration_order {ε DL DS LM Model Preds Labels : Type}
    (q : Bool) (env : Env) (lib : ExtLib ε DL DS LM Model Preds Labels)
    (pf : String → Option ℚ) :
    ((runNotebook q env lib pf).2 = .ok () →
      (runNotebook q env lib pf).1.map Event.step = fullSteps) ∧
    (runNotebook q env lib pf).1.map Event.step <+: fullSteps := by
  rcases runNotebook_cases q env lib pf with
      ⟨e, h1, hrun⟩ |
      ⟨td, tl, lm, ds, e, h1, h2, hrun⟩ |
      ⟨td, tl, lm, ds, model, e, h1, h2, h3, hrun⟩ |
      ⟨td, tl, lm, ds, model, e, h1, h2, h3, h4, hrun⟩ |
      ⟨td, tl, lm, ds, model, preds, e, h1, h2, h3, h4, h5, hrun⟩ |
      ⟨td, tl, lm, ds, model, preds, tlbl, e, h1, h2, h3, h4, h5, h6, hrun⟩ |
      ⟨td, tl, lm, ds, model, preds, tlbl, plbl, e, h1, h2, h3, h4, h5, h6, h7, hrun⟩ |
      ⟨td, tl, lm, ds, model, preds, tlbl, plbl, report, glued, e, h1, h2, h3,
        h4, h5, h6, h7, hm, hrun⟩ |
      ⟨td, tl, lm, ds, model, preds, tlbl, plbl, report, glued, h1, h2, h3, h4,
        h5, h6, h7, hm, hrun⟩
  · refine ⟨fun h => ?_, ?_⟩
    · rw [hrun] at h; simp at h
    · rw [hrun]; simp only [List.map_cons, List.map_nil, Event.step]; decide
  · refine ⟨fun h => ?_, ?_⟩
    · rw [hrun] at h; simp at h
    · rw [hrun]; simp only [List.map_cons, List.map_nil, Event.step]; decide
  · refine ⟨fun h => ?_, ?_⟩
    · rw [hrun] at h; simp at h
    · rw [hrun]; simp only [List.map_cons, List.map_nil, Event.step]; decide
  · refine ⟨fun h => ?_, ?_⟩
    · rw [hrun] at h; simp at h
    · rw [hrun]; simp only [List.map_cons, List.map_nil, Event.step]; decide
  · refine ⟨fun h => ?_, ?_⟩
    · rw [hrun] at h; simp at h
    · rw [hrun]; simp only [List.map_cons, List.map_nil, Event.step]; decide
  · refine ⟨fun h => ?_, ?_⟩
    · rw [hrun] at h; simp at h
    · rw [hrun]; simp only [List.map_cons, List.map_nil, Event.step]; decide
  · refine ⟨fun h => ?_, ?_⟩
    · rw [hrun] at h; simp at h
    · rw [hrun]; simp only [List.map_cons, List.map_nil, Event.step]; decide
  · rcases metricsCell_shape pf report with ⟨p', r', f', hs⟩ | ⟨hne, hshapes⟩
    · rw [hm] at hs; simp at hs
    · rw [hm] at hshapes
      simp only [] at hshapes
      obtain hg | ⟨p, hg⟩ | ⟨p, r, hg⟩ := hshapes <;> subst hg <;>
        refine ⟨fun h => ?_, ?_⟩
      · rw [hrun] at h; simp at h
      · rw [hrun]
        simp only [List.map_append, List.map_cons, List.map_nil, Event.step]
        decide
      · rw [hrun] at h; simp at h
      · rw [hrun]
        simp only [List.map_append, List.map_cons, List.map_nil, Event.step]
        decide
      · rw [hrun] at h; simp at h
      · rw [hrun]
        simp only [List.map_append, List.map_cons, List.map_nil, Event.step]
        decide
  · rcases metricsCell_shape pf report with ⟨p, r, f, hs⟩ | ⟨hne, hshapes⟩
    · rw [hm] at hs
      have hg : glued = [("precision", p), ("recall", r), ("f1", f)] := by
        simpa using congrArg Prod.fst hs
      subst hg
      refine ⟨fun _ => ?_, ?_⟩
      · rw [hrun]
        simp only [List.map_append, List.map_cons, List.map_nil, Event.step]
        decide
      · rw [hrun]
        simp only [List.map_append, List.map_cons, List.map_nil, Event.step]
        decide
    · rw [hm] at hne; simp at hne

/-- C6 witness: with the all-succeeding concrete library the run succeeds and
the trace's step kinds are exactly the full program order. -/
theorem orchestration_order_witness :
    (runNotebook false ⟨false, "d", "c"⟩ demoLib
        (fun _ => some 0)).1.map Event.step = fullSteps :=
  (orchestration_order false ⟨false, "d", "c"⟩ demoLib (fun _ => some 0)).1 rfl

/-- C7 witness: with a library whose dataset download fails, the run ends with
exactly that error and the trace stops at the `load_dataset` call. -/
theorem errors_propagate_unmodified_witness :
    runNotebook false ⟨false, "d", "c"⟩ loadFailLib (fun _ => some 0) =
      ([.load_dataset (loadArgsOf (mkConfig false ⟨false, "d", "c"⟩))],
        .error (.ext ())) :=
  (errors_propagate_unmodified false ⟨false, "d", "c"⟩ loadFailLib
    (fun _ => some 0)).1 () rfl

end NerWikigold
